import Mathlib

/-
Verification of the panel lifecycle and live-synchronization engine of the
glTF preview extension (src/gltfPreview.ts), against its natural-language
specification.

The TypeScript source is shallowly embedded: JSON values become an inductive
type, JavaScript object mutation becomes explicit state passing, thrown
exceptions become an Option String error component alongside the state (so
mutations performed before a throw persist, as in JavaScript), and calls into
the host (editor commands, notifications, event emitters) become an explicit
list of Effect values. File-system watching (fs.watch) is modelled by a
WatchState holding open handles plus a predicate saying which paths exist;
fs.watch on a missing path throws ENOENT, which the model reflects.
Paths are POSIX strings; path.join dir name is modelled as dir ++ "/" ++ name.
-/

set_option autoImplicit false

namespace GltfPreview

/-- A JavaScript/JSON value as produced by parsing document text.
Parse output is a finite tree (no sharing, no cycles). -/
inductive Json where
  | str (s : String)
  | num (n : Int)
  | bool (b : Bool)
  | null
  | arr (elems : List Json)
  | obj (fields : List (String × Json))

/-- Model of Node path.join for a directory and a relative name
(src/gltfPreview.ts line 270: path.join(documentDirectoryPath, value)). -/
def pathJoin (dir name : String) : String :=
  dir ++ "/" ++ name

/-- Model of the JavaScript method value.startsWith(pre)
(src/gltfPreview.ts line 269): the characters of pre are a prefix of the
characters of the string. -/
def jsStartsWith (s pre : String) : Bool :=
  pre.data.isPrefixOf s.data

/-- Model of Node path.basename on POSIX path strings
(src/gltfPreview.ts line 139). -/
def basename (p : String) : String :=
  (p.splitOn "/").getLastD ""

/-- Model of Node path.dirname on POSIX path strings
(src/gltfPreview.ts lines 138, 263). -/
def dirname (p : String) : String :=
  let parts := p.splitOn "/"
  if parts.length ≤ 1 then "." else String.intercalate "/" parts.dropLast

/-- JavaScript truthiness of a value (null, false, 0 and the empty string are
falsy; every object and array is truthy). -/
def truthy : Json → Bool
  | .str s => s ≠ ""
  | .num n => n ≠ 0
  | .bool b => b
  | .null => false
  | .arr _ => true
  | .obj _ => true

/-- Truthiness of a possibly-undefined value (none models undefined). -/
def otruthy : Option Json → Bool
  | none => false
  | some v => truthy v

/-- JavaScript property access o.k on a possibly-undefined value, restricted to
the guarded uses in the source (the source only dereferences after a truthiness
check, so the none case here is never reached behind a guard). Property access
on a non-object JSON value yields undefined. -/
def jsGet (v : Option Json) (k : String) : Option Json :=
  match v with
  | some (.obj fields) => (fields.find? (fun f => f.1 == k)).map (fun f => f.2)
  | _ => none

/-- JavaScript indexing v[0] as used at src/gltfPreview.ts line 143:
on a string it yields the one-character string at index 0, on a nonempty array
its first element, otherwise undefined. -/
def index0 : Json → Option Json
  | .str s =>
    match s.data with
    | [] => none
    | c :: _ => some (.str (String.mk [c]))
  | .arr (x :: _) => some x
  | _ => none

/-- Lift index0 to a possibly-undefined value. -/
def index0Opt : Option Json → Option Json
  | none => none
  | some v => index0 v

/-- JavaScript strict equality of a possibly-undefined value with a string
literal: true exactly when the value is a string with those contents. -/
def jsStrictEqStr : Option Json → String → Bool
  | some (.str s), t => s == t
  | _, _ => false

/-- Content-type discriminator (src/gltfPreview.ts lines 141-145):
let gltfMajorVersion = 1; if (gltf and gltf.asset and gltf.asset.version and
gltf.asset.version[0] === char 2) gltfMajorVersion = 2. -/
def gltfMajorVersion (gltf : Option Json) : Nat :=
  if otruthy gltf then
    let asset := jsGet gltf "asset"
    if otruthy asset then
      let version := jsGet asset "version"
      if otruthy version then
        if jsStrictEqStr (index0Opt version) "2" then 2 else 1
      else 1
    else 1
  else 1

/-
Reference scanner: the `watch` closure of GltfPreview.watchFiles
(src/gltfPreview.ts lines 265-282). For each own enumerable key of an object:
when the key is "uri", the value is a string and it does not start with
"data:", the joined path is watched; otherwise, when typeof value is
"object" (JavaScript objects, arrays and null), the closure recurses.
A for-in loop over an array enumerates index keys "0", "1", ..., which are
never equal to "uri"; over null, a string, a number or a boolean it
enumerates nothing. The three mutual functions below cover the value, the
fields of an object, and the elements of an array; watchScan returns the
watched paths in discovery order. -/

mutual

/-- Paths discovered by one call of the watch closure on a value
(src/gltfPreview.ts lines 265-280). -/
def watchScan (dir : String) : Json → List String
  | .obj fields => watchScanFields dir fields
  | .arr elems => watchScanElems dir elems
  | _ => []
termination_by structural t => t

/-- Paths discovered while iterating the own keys of an object: a string
value is checked against the uri key and the data: exclusion; a number or a
boolean has typeof other than object and is skipped; an object, an array or
null has typeof object and is recursed into (the recursion on a string, a
number or a boolean yields nothing, so routing the composite cases through
watchScan is the same recursion). -/
def watchScanFields (dir : String) : List (String × Json) → List String
  | [] => []
  | (k, v) :: rest =>
    (match v with
     | .str s =>
       if k == "uri" && !(jsStartsWith s "data:") then [pathJoin dir s] else []
     | .num _ => []
     | .bool _ => []
     | v2 => watchScan dir v2) ++ watchScanFields dir rest
termination_by structural l => l

/-- Paths discovered while iterating the index keys of an array; an index key
is never "uri", so a string element contributes nothing, exactly as the scan
of a string value does. -/
def watchScanElems (dir : String) : List Json → List String
  | [] => []
  | v :: rest => watchScan dir v ++ watchScanElems dir rest
termination_by structural l => l

end

/-- The scan applied to panel._jsonMap.data, which may be undefined when the
parse failed (a for-in loop over undefined enumerates nothing). -/
def watchScanOpt (dir : String) : Option Json → List String
  | none => []
  | some v => watchScan dir v

mutual

/-- Specification-side characterization: the string values carried by "uri"
keys of the tree, in the traversal order of the watch closure, before the
data-URI exclusion and the directory resolution are applied. -/
def uriStrings : Json → List String
  | .obj fields => uriStringsFields fields
  | .arr elems => uriStringsElems elems
  | _ => []
termination_by structural t => t

/-- The uri string values found among the fields of an object. -/
def uriStringsFields : List (String × Json) → List String
  | [] => []
  | (k, v) :: rest =>
    (match v with
     | .str s => if k == "uri" then [s] else []
     | .num _ => []
     | .bool _ => []
     | v2 => uriStrings v2) ++ uriStringsFields rest
termination_by structural l => l

/-- The uri string values found among the elements of an array. -/
def uriStringsElems : List Json → List String
  | [] => []
  | v :: rest => uriStrings v ++ uriStringsElems rest
termination_by structural l => l

end

/-- A relative path in the sense of the specification: a plain file path with
no scheme (hence not a data: URI) and no leading slash. -/
def isRelativePath (s : String) : Bool :=
  !(s.data.contains ':') && !(jsStartsWith s "/")

/-- A family of documents nested to depth n, with a single uri reference at
the innermost level; used to show the scan reaches arbitrary depth. -/
def nestedDoc : Nat → Json
  | 0 => .obj [("uri", .str "deep.bin")]
  | n + 1 => .obj [("child", nestedDoc n)]

/-
File-watch model. panel._watchers is the array of fs.FSWatcher handles owned
by the panel; openHandles is the collection of watch handles currently open at
the operating-system level on the panel's behalf. Each handle is a fresh
numeric id paired with the watched path; nextId supplies fresh ids.
fs.watch(path, cb) throws ENOENT when the path does not exist, which is
modelled by the fsys predicate; there is no try/catch in watchFiles, so the
thrown error propagates, but handles opened before the throw stay open and
stay in panel._watchers, as in JavaScript.
-/

/-- The watch-related state of one panel: panel._watchers (src/gltfPreview.ts
line 21), the open OS handles backing them, and a fresh-id counter. -/
structure WatchState where
  watchers : List (Nat × String)
  openHandles : List (Nat × String)
  nextId : Nat
deriving DecidableEq, Repr

/-- The state of a panel before any watch is established: panel._watchers = []
(src/gltfPreview.ts line 79). -/
def initialWatchState : WatchState :=
  ⟨[], [], 0⟩

/-- Model of fs.watch (src/gltfPreview.ts lines 259, 271): on an existing path
it opens a fresh handle, records it in panel._watchers and returns no error;
on a missing path it throws ENOENT and changes nothing. -/
def fsWatch (fsys : String → Bool) (p : String) (s : WatchState) :
    WatchState × Option String :=
  if fsys p then
    (⟨s.watchers ++ [(s.nextId, p)], s.openHandles ++ [(s.nextId, p)],
      s.nextId + 1⟩, none)
  else
    (s, some ("ENOENT: " ++ p))

/-- GltfPreview.unwatchFiles (src/gltfPreview.ts lines 285-291): close every
watcher held by the panel, then empty panel._watchers. -/
def unwatchFiles (s : WatchState) : WatchState :=
  ⟨[], s.openHandles.filter (fun h => !(s.watchers.contains h)), s.nextId⟩

/-- Establish watches for a list of paths in order, stopping at the first
fs.watch failure, whose exception propagates (there is no try/catch in
src/gltfPreview.ts lines 254-283). -/
def watchPaths (fsys : String → Bool) : List String → WatchState →
    WatchState × Option String
  | [], s => (s, none)
  | p :: rest, s =>
    match fsWatch fsys p s with
    | (s1, none) => watchPaths fsys rest s1
    | (s1, some e) => (s1, some e)

/-- GltfPreview.watchFiles (src/gltfPreview.ts lines 254-283): first
unwatchFiles, then a watch on the document path itself, then one watch per
path discovered by the watch closure over panel._jsonMap.data. -/
def watchFiles (fsys : String → Bool) (docPath dir : String)
    (data : Option Json) (s : WatchState) : WatchState × Option String :=
  watchPaths fsys (docPath :: watchScanOpt dir data) (unwatchFiles s)

/-- N successive watch-set rebuilds of the same panel. -/
def rebuildN (fsys : String → Bool) (docPath dir : String) (data : Option Json) :
    Nat → WatchState → WatchState
  | 0, s => s
  | n + 1, s => rebuildN fsys docPath dir data n (watchFiles fsys docPath dir data s).1

/-- The handle entries created by consecutive fresh ids starting at start, one
per path in order. -/
def handleEntries : Nat → List String → List (Nat × String)
  | _, [] => []
  | start, p :: rest => (start, p) :: handleEntries (start + 1) rest

/-
Graph model of the watch closure, for inputs that are general JavaScript
object graphs rather than parse output. JavaScript objects are references, so
an object value reachable from panel._jsonMap.data can in general be shared or
self-referential; the watch closure (src/gltfPreview.ts lines 265-280) keeps
no record of visited objects. The functions below are the same recursion with
nodes named by indices into a node table and with explicit fuel: a none result
means the recursion exceeded the given fuel.
-/

/-- A field value in the graph model: a scalar, or a reference to a composite
node of the node table. -/
inductive JsVal where
  | vstr (s : String)
  | vnum (n : Int)
  | vbool (b : Bool)
  | vnull
  | vref (node : Nat)
deriving DecidableEq, Repr

/-- A node table: node i is an object whose fields are listed at index i. -/
def JsGraph : Type := List (List (String × JsVal))

mutual

/-- The watch closure applied to node nid of the graph. The recursion of the
source has no fuel; here every recursive step consumes one unit of fuel, and a
none result means the given fuel did not suffice: the recursion of the source
would still be running after that many steps. -/
def scanGraph (g : JsGraph) (dir : String) : Nat → Nat → Option (List String)
  | 0, _ => none
  | fuel + 1, nid =>
    match g.get? nid with
    | none => some []
    | some fields => scanGraphFields g dir fuel fields
termination_by structural fuel _ => fuel

/-- The watch closure iterating the fields of one object node, with fuel. -/
def scanGraphFields (g : JsGraph) (dir : String) :
    Nat → List (String × JsVal) → Option (List String)
  | 0, _ => none
  | _ + 1, [] => some []
  | fuel + 1, (k, v) :: rest =>
    match v with
    | .vstr s =>
      match scanGraphFields g dir fuel rest with
      | none => none
      | some ys =>
        some ((if k == "uri" && !(jsStartsWith s "data:")
               then [pathJoin dir s] else []) ++ ys)
    | .vref nid =>
      match scanGraph g dir fuel nid with
      | none => none
      | some xs =>
        match scanGraphFields g dir fuel rest with
        | none => none
        | some ys => some (xs ++ ys)
    | _ => scanGraphFields g dir fuel rest
termination_by structural fuel _ => fuel

end

/-- A one-node self-referential object graph: node 0 holds a field whose value
is node 0 itself. -/
def cyclicGraph : JsGraph :=
  [[("self", JsVal.vref 0)]]

/-- An acyclic graph with sharing: node 0 references node 1 twice, and node 1
carries a uri reference. -/
def sharedGraph : JsGraph :=
  [[("a", JsVal.vref 1), ("b", JsVal.vref 1)], [("uri", JsVal.vstr "x.png")]]

/-
Panel model. A GltfPreviewPanelInfo holds the parsed map (data plus position
map), the readiness flag, the title, the webview html, and the watch state.
Registering a webview message handler (panel.webview.onDidReceiveMessage,
src/gltfPreview.ts lines 158-160) adds one more listener and never removes
the listeners added by earlier updatePanel calls; since every listener is the
same closure delegating to GltfPreview.onDidReceiveMessage for this panel, the
panel state only needs to count them. Host calls made by the message handler
are recorded as Effect values.
-/

/-- One entry of the position map: the byte offsets of a value and of its end
in the document text (the pointer.value.pos and pointer.valueEnd.pos fields
read at src/gltfPreview.ts line 170). -/
structure PtrEntry where
  valuePos : Nat
  valueEndPos : Nat
deriving DecidableEq, Repr

/-- The result of parseJsonMap: the parsed data (none when the text could not
be parsed) and the position map from JSON pointers to offsets. -/
structure JsonMap where
  data : Option Json
  pointers : List (String × PtrEntry)

/-- Modelled from the spec: parseJsonMap lives in src/utilities.ts, which is
not part of the sources under verification. Per the specification the Content
Parser must "tolerate and gracefully surface parse failure rather than crash
the panel" and return "a well-defined failure sentinel"; the sentinel is
modelled as a map with no data and an empty position map. -/
def parseFailureSentinel : JsonMap :=
  ⟨none, []⟩

/-- An inbound webview message as read by GltfPreview.onDidReceiveMessage
(src/gltfPreview.ts lines 165-195): a command string plus the payload fields
the handler may read. -/
structure Message where
  command : String
  jsonPointer : String
  name : String
  value : Json
  message : String

/-- A host-visible action requested by the message handler. -/
inductive Effect where
  | openGltfSelection (startOff endOff : Nat)
  | setContextCmd (name : String) (value : Json)
  | showErrorMsg (m : String)
  | showWarningMsg (m : String)
  | firePanelReady

/-- True exactly for the readiness notification effect. -/
def Effect.isFireReady : Effect → Bool
  | .firePanelReady => true
  | _ => false

/-- The mutable state of one preview panel (interface GltfPreviewPanelInfo,
src/gltfPreview.ts lines 13-22, plus the webview title, html and listener
count). -/
structure PanelState where
  jsonMap : JsonMap
  defaultBabylonReflection : String
  defaultThreeReflection : String
  title : String
  html : Option String
  handlerCount : Nat
  ready : Bool
  ws : WatchState

/-- Position-map lookup panel._jsonMap.pointers[message.jsonPointer]
(src/gltfPreview.ts line 168); none models undefined. -/
def lookupPointer (ptrs : List (String × PtrEntry)) (k : String) : Option PtrEntry :=
  (ptrs.find? (fun e => e.1 == k)).map (fun e => e.2)

/-- GltfPreview.onDidReceiveMessage (src/gltfPreview.ts lines 165-195).
The result is the panel state after the handler, the host effects it issued,
and the error it threw, if any (mutations made before a throw persist). For a
select message the source reads pointer.value.pos without checking the lookup
result, so an absent pointer makes the handler throw a TypeError before
issuing any command. An unrecognized command throws before touching the
state. -/
def onDidReceiveMessage (p : PanelState) (m : Message) :
    PanelState × List Effect × Option String :=
  if m.command = "select" then
    match lookupPointer p.jsonMap.pointers m.jsonPointer with
    | none =>
      (p, [], some "TypeError: cannot read properties of undefined")
    | some ptr =>
      (p, [Effect.openGltfSelection ptr.valuePos ptr.valueEndPos], none)
  else if m.command = "setContext" then
    (p, [Effect.setContextCmd m.name m.value], none)
  else if m.command = "showErrorMessage" then
    (p, [Effect.showErrorMsg m.message], none)
  else if m.command = "showWarningMessage" then
    (p, [Effect.showWarningMsg m.message], none)
  else if m.command = "onReady" then
    ({ p with ready := true }, [Effect.firePanelReady], none)
  else
    (p, [], some ("Unknown command: " ++ m.command))

/-- The host-derived inputs of the payload builder: the cached page templates,
the extension root, the workspace configuration, the sandbox URI translation
and the content-security-policy source of the webview. -/
structure HostEnv where
  mainHtml : String
  babylonHtml : String
  cesiumHtml : String
  threeHtml : String
  extensionRootPath : String
  config : String → String
  asWebviewUri : String → String
  cspSource : String

/-- The stylesheet manifest of GltfPreview.formatHtml
(src/gltfPreview.ts lines 223-228). -/
def styleSheets : List String :=
  ["pages/babylonView.css", "pages/cesiumView.css", "pages/threeView.css",
   "pages/previewModel.css"]

/-- The script manifest of GltfPreview.formatHtml
(src/gltfPreview.ts lines 230-245). -/
def scriptFiles : List String :=
  ["engines/Cesium/Cesium.js", "node_modules/babylonjs/babylon.js",
   "node_modules/babylonjs-loaders/babylonjs.loaders.min.js",
   "node_modules/babylonjs-inspector/babylon.inspector.bundle.js",
   "engines/Three/three.min.js", "engines/Three/DDSLoader.js",
   "engines/Three/DRACOLoader.js", "engines/Three/GLTFLoader.js",
   "engines/Three/OrbitControls.js", "pages/babylonView.js",
   "pages/babylonDebug.js", "pages/cesiumView.js", "pages/threeView.js",
   "pages/previewModel.js"]

/-- GltfPreview.formatHtml (src/gltfPreview.ts lines 197-252): build the named
string carriers, the stylesheet links and the script tags, and substitute them
into the single assets placeholder of the main page template. -/
def formatHtml (env : HostEnv) (gltfMajor : Nat) (gltfContent gltfRootPath
    gltfFileName defaultBabylonReflection defaultThreeReflection : String) :
    String :=
  let defaultEngine := env.config ("defaultV" ++ toString gltfMajor ++ "Engine")
  let dracoLoaderPath := env.extensionRootPath ++ "engines/Draco/draco_decoder.js"
  let dracoLoaderWasmPath := env.extensionRootPath ++ "engines/Draco/draco_decoder.wasm"
  let strings : List (String × String) :=
    [("extensionRootPath", env.extensionRootPath),
     ("defaultEngine", defaultEngine),
     ("defaultBabylonReflection", defaultBabylonReflection),
     ("defaultThreeReflection", defaultThreeReflection),
     ("dracoLoaderPath", dracoLoaderPath),
     ("dracoLoaderWasmPath", dracoLoaderWasmPath),
     ("babylonHtml", env.babylonHtml),
     ("cesiumHtml", env.cesiumHtml),
     ("threeHtml", env.threeHtml),
     ("gltf", gltfContent),
     ("gltfRootPath", gltfRootPath),
     ("gltfFileName", gltfFileName)]
  let styles := styleSheets.map (fun s => env.asWebviewUri (pathJoin env.extensionRootPath s))
  let scripts := scriptFiles.map (fun s => env.asWebviewUri (pathJoin env.extensionRootPath s))
  let assets :=
    String.join (styles.map (fun s => "<link rel=\"stylesheet\" href=\"" ++ s ++ "\"></link>\n")) ++
    String.join (strings.map (fun s =>
      "<script id=\"" ++ s.1 ++ "\" type=\"text/plain\">" ++ s.2 ++ "</script>\n")) ++
    String.join (scripts.map (fun s =>
      "<script type=\"text/javascript\" charset=\"UTF-8\" crossorigin=\"anonymous\" src=\"" ++ s ++ "\"></script>\n"))
  env.mainHtml.replace "\x7bassets\x7d" assets

/-- GltfPreview.updatePanel (src/gltfPreview.ts lines 134-163): store the
fresh parse result, compute the content-type discriminator, set title and
html, register one more webview message listener, and rebuild the watch set.
watchFiles is last; when it throws, the earlier mutations persist and the
error propagates to the caller. -/
def updatePanel (env : HostEnv) (fsys : String → Bool)
    (parse : String → JsonMap) (p : PanelState)
    (gltfFilePath gltfContent : String) : PanelState × Option String :=
  let map := parse gltfContent
  let gltfRootPath := dirname gltfFilePath ++ "/"
  let gltfFileName := basename gltfFilePath
  let major := gltfMajorVersion map.data
  let html := (formatHtml env major gltfContent gltfRootPath gltfFileName
      p.defaultBabylonReflection p.defaultThreeReflection).replace
      "$\x7bwebview.cspSource\x7d" env.cspSource
  let p1 : PanelState :=
    { p with
      jsonMap := map,
      title := "glTF Preview [" ++ gltfFileName ++ "]",
      html := some html,
      handlerCount := p.handlerCount + 1 }
  let r := watchFiles fsys gltfFilePath (dirname gltfFilePath) map.data p1.ws
  ({ p1 with ws := r.1 }, r.2)

/-- N successive updatePanel calls on the same panel with the same document. -/
def updateN (env : HostEnv) (fsys : String → Bool) (parse : String → JsonMap)
    (gltfFilePath gltfContent : String) : Nat → PanelState → PanelState
  | 0, p => p
  | n + 1, p =>
    updateN env fsys parse gltfFilePath gltfContent n
      (updatePanel env fsys parse p gltfFilePath gltfContent).1

/-- Run the panel's registered message listeners on one inbound message, in
registration order; each listener is the same closure delegating to
onDidReceiveMessage, and an error thrown by one listener is contained by the
host event emitter, so the remaining listeners still run. Results: final
state, all issued effects, all thrown errors. -/
def runHandlers : Nat → PanelState → Message →
    PanelState × List Effect × List String
  | 0, p, _ => (p, [], [])
  | n + 1, p, m =>
    let r := onDidReceiveMessage p m
    let r2 := runHandlers n r.1 m
    (r2.1, r.2.1 ++ r2.2.1, (r.2.2).toList ++ r2.2.2)

/-- Deliver one inbound webview message to the panel: every listener
registered so far receives it. -/
def deliver (p : PanelState) (m : Message) :
    PanelState × List Effect × List String :=
  runHandlers p.handlerCount p m

/-
Panel registry model. GltfPreview._panels maps the document file name to the
panel (src/gltfPreview.ts line 30); openPanel (lines 57-101) creates a panel
only when the map has no entry for the file name, then refreshes and reveals
the panel in either case. Panel instances are named by creation ids so that
instance identity is observable; content refresh is modelled separately by
updatePanel above.
-/

/-- The panel registry: this._panels as an association list from document file
name to panel id, plus a fresh-id counter for created panels. -/
structure RegistryState where
  panels : List (String × Nat)
  nextPanelId : Nat
deriving DecidableEq, Repr

/-- The registry of a freshly constructed GltfPreview: no panels. -/
def emptyRegistry : RegistryState :=
  ⟨[], 0⟩

/-- Registry lookup this._panels[fileName] (src/gltfPreview.ts lines 60, 110). -/
def lookupPanel (s : RegistryState) (p : String) : Option Nat :=
  ((s.panels).find? (fun e => e.1 == p)).map (fun e => e.2)

/-- The registry effect of GltfPreview.openPanel (src/gltfPreview.ts lines
57-101): reuse the existing panel when there is one, else create a fresh one
and record it; the returned id is the panel that is then refreshed and
revealed. -/
def openPanel (s : RegistryState) (p : String) : RegistryState × Nat :=
  match lookupPanel s p with
  | some pid => (s, pid)
  | none =>
    (⟨s.panels ++ [(p, s.nextPanelId)], s.nextPanelId + 1⟩, s.nextPanelId)

/-- The registry after a sequence of openPanel calls starting from a fresh
GltfPreview. -/
def openSeq (calls : List String) : RegistryState :=
  calls.foldl (fun s p => (openPanel s p).1) emptyRegistry

/-- A concrete panel whose position map is empty, as after any parse whose
text does not contain the pointed-to path. -/
def samplePanel : PanelState :=
  { jsonMap := ⟨none, []⟩
    defaultBabylonReflection := ""
    defaultThreeReflection := ""
    title := ""
    html := none
    handlerCount := 1
    ready := false
    ws := initialWatchState }

/-- A select message whose JSON pointer is absent from samplePanel's position
map. -/
def missingPointerMsg : Message :=
  ⟨"select", "/nodes/0/name", "", Json.null, ""⟩

/-- The inbound readiness message, command onReady. -/
def onReadyMsg : Message :=
  ⟨"onReady", "", "", Json.null, ""⟩

/-- The document tree of the specification scenario
with content containing asset.version 2.0 and one image uri tex.png. -/
def scenarioTree : Json :=
  .obj [("asset", .obj [("version", .str "2.0")]),
        ("images", .arr [.obj [("uri", .str "tex.png")]])]

/-
Theorems. Each claim of the specification is settled below against the
definitions above.
-/

/-- C6: a message whose command is outside the recognized enumeration makes
the handler throw exactly one error for that message, issue no host effect,
and leave the whole panel state, in particular the readiness flag and the
watch set, unchanged; the error is a thrown value handed to the host event
emitter, so neither the panel nor the host process is torn down. -/
theorem unknown_command_contained :
    ∀ (p : PanelState) (m : Message),
      m.command ∉ ["select", "setContext", "showErrorMessage",
        "showWarningMessage", "onReady"] →
      onDidReceiveMessage p m =
        (p, [], some ("Unknown command: " ++ m.command)) := by
  intro p m h
  simp only [List.mem_cons, List.not_mem_nil, or_false, not_or] at h
  obtain ⟨h1, h2, h3, h4, h5⟩ := h
  simp [onDidReceiveMessage, h1, h2, h3, h4, h5]

/-- Witness for C6: a concrete bogus command on a concrete panel. -/
theorem unknown_command_contained_witness :
    onDidReceiveMessage samplePanel ⟨"bogus", "", "", Json.null, ""⟩ =
      (samplePanel, [], some ("Unknown command: " ++ "bogus")) :=
  unknown_command_contained samplePanel ⟨"bogus", "", "", Json.null, ""⟩ (by simp)

/-- C1 counterexample: on a panel whose current position map lacks the pointer
of an inbound select message, the handler is not silent: reading
pointer.value.pos from the undefined lookup result throws a TypeError. The
claim that it does not throw is false; it does hold that no selection command
is issued and the panel state is unchanged. -/
theorem select_missing_pointer_cex :
    onDidReceiveMessage samplePanel missingPointerMsg =
      (samplePanel, [], some "TypeError: cannot read properties of undefined") := rfl

/-- C1 amended: for every panel and every select message whose jsonPointer is
absent from the panel's current position map, the handler throws a TypeError
for that message; it does not navigate, issues no editor selection command,
and leaves the panel state unchanged. -/
theorem select_missing_pointer_amended :
    ∀ (p : PanelState) (m : Message),
      m.command = "select" →
      lookupPointer p.jsonMap.pointers m.jsonPointer = none →
      onDidReceiveMessage p m =
        (p, [], some "TypeError: cannot read properties of undefined") := by
  intro p m hc hl
  simp [onDidReceiveMessage, hc, hl]

/-- Witness for the amended C1 at a concrete panel and message. -/
theorem select_missing_pointer_amended_witness :
    onDidReceiveMessage samplePanel missingPointerMsg =
      (samplePanel, [], some "TypeError: cannot read properties of undefined") :=
  select_missing_pointer_amended samplePanel missingPointerMsg rfl rfl

/-- A registry whose lookup misses the key p has no entry with key p. -/
theorem lookupPanel_none_not_mem {s : RegistryState} {p : String}
    (h : lookupPanel s p = none) : p ∉ s.panels.map Prod.fst := by
  intro hmem
  obtain ⟨e, he, hfst⟩ := List.mem_map.mp hmem
  have hf : (s.panels).find? (fun e => e.1 == p) = none := by
    cases hfind : (s.panels).find? (fun e => e.1 == p) with
    | none => rfl
    | some x => rw [lookupPanel, hfind] at h; simp at h
  have := List.find?_eq_none.mp hf e he
  simp [hfst] at this

/-- openPanel preserves distinctness of the registry keys. -/
theorem openPanel_keys_nodup {s : RegistryState} (p : String)
    (h : (s.panels.map Prod.fst).Nodup) :
    (((openPanel s p).1).panels.map Prod.fst).Nodup := by
  rw [openPanel]
  cases hl : lookupPanel s p with
  | some pid => simpa using h
  | none =>
    simp only [List.map_append, List.map_cons, List.map_nil]
    rw [List.nodup_append]
    refine ⟨h, List.nodup_singleton _, ?_⟩
    intro a ha hb
    simp at hb
    subst hb
    exact lookupPanel_none_not_mem hl ha

/-- C2: openPanel reuses the panel registered for the document identity when
there is one, leaving the registry and the fresh-id supply unchanged and
returning that very panel, and after any sequence of openPanel calls the
registry holds at most one panel per identity (its keys are distinct). -/
theorem openPanel_at_most_one_panel :
    (∀ (s : RegistryState) (p : String) (pid : Nat),
      lookupPanel s p = some pid → openPanel s p = (s, pid))
    ∧ ∀ calls : List String, ((openSeq calls).panels.map Prod.fst).Nodup := by
  constructor
  · intro s p pid h
    rw [openPanel, h]
  · intro calls
    suffices h : ∀ s : RegistryState, (s.panels.map Prod.fst).Nodup →
        ((calls.foldl (fun s p => (openPanel s p).1) s).panels.map Prod.fst).Nodup by
      exact h emptyRegistry (by simp [emptyRegistry])
    induction calls with
    | nil => intro s hs; simpa using hs
    | cons c cs ih =>
      intro s hs
      exact ih _ (openPanel_keys_nodup c hs)

/-- The registry after opening document a once. -/
def registryAfterA : RegistryState :=
  (openPanel emptyRegistry "a").1

/-- Witness for C2: opening document a a second time returns the registry
unchanged together with the panel created by the first call. -/
theorem openPanel_at_most_one_panel_witness :
    openPanel registryAfterA "a" = (registryAfterA, 0) :=
  openPanel_at_most_one_panel.1 registryAfterA "a" 0 rfl

/-- Each updatePanel call adds exactly one webview message listener and
removes none. -/
theorem updatePanel_handlerCount (env : HostEnv) (fsys : String → Bool)
    (parse : String → JsonMap) (p : PanelState) (path content : String) :
    ((updatePanel env fsys parse p path content).1).handlerCount =
      p.handlerCount + 1 := rfl

/-- Listener count after N successive updatePanel calls. -/
theorem updateN_handlerCount (env : HostEnv) (fsys : String → Bool)
    (parse : String → JsonMap) (path content : String) :
    ∀ (n : Nat) (p : PanelState),
      (updateN env fsys parse path content n p).handlerCount =
        p.handlerCount + n := by
  intro n
  induction n with
  | zero => intro p; rfl
  | succ k ih =>
    intro p
    rw [updateN, ih]
    rw [updatePanel_handlerCount]
    omega

/-- Delivering an onReady message to a panel with n registered listeners fires
the readiness notification once per listener. -/
theorem runHandlers_onReady_count :
    ∀ (n : Nat) (p : PanelState),
      ((runHandlers n p onReadyMsg).2.1).countP (fun e => e.isFireReady) = n := by
  intro n
  induction n with
  | zero => intro p; rfl
  | succ k ih =>
    intro p
    rw [runHandlers]
    simp only [List.countP_append]
    rw [ih]
    have : (onDidReceiveMessage p onReadyMsg).2.1 = [Effect.firePanelReady] := rfl
    rw [this]
    simp [List.countP, List.countP.go, Effect.isFireReady]
    omega

/-- C10: every updatePanel call (run on each openPanel, content refresh, and
document-watch fire) registers one additional webview message listener and
removes none, so after N updates of a fresh panel the listener count is N and
one inbound onReady message fires the readiness-changed notification N
times. -/
theorem handler_accumulation :
    ∀ (env : HostEnv) (fsys : String → Bool) (parse : String → JsonMap)
      (path content : String) (N : Nat) (p q : PanelState),
      (updateN env fsys parse path content N p).handlerCount = p.handlerCount + N
      ∧ ((deliver q onReadyMsg).2.1).countP (fun e => e.isFireReady) = q.handlerCount
      ∧ ((deliver (updateN env fsys parse path content N p) onReadyMsg).2.1).countP
          (fun e => e.isFireReady) = p.handlerCount + N := by
  intro env fsys parse path content N p q
  refine ⟨updateN_handlerCount env fsys parse path content N p, ?_, ?_⟩
  · rw [deliver, runHandlers_onReady_count]
  · rw [deliver, runHandlers_onReady_count,
      updateN_handlerCount env fsys parse path content N p]

/-- The data-URI exclusion and the directory resolution applied to a list of
uri string values. -/
def resolveNonData (dir : String) (l : List String) : List String :=
  (l.filter (fun s => !(jsStartsWith s "data:"))).map (pathJoin dir)

/-- resolveNonData distributes over list concatenation. -/
theorem resolveNonData_append (dir : String) (a b : List String) :
    resolveNonData dir (a ++ b) = resolveNonData dir a ++ resolveNonData dir b := by
  simp [resolveNonData, List.filter_append]

mutual

/-- The watch scan of a value is exactly its uri string values with data URIs
excluded and the rest resolved against the directory. -/
theorem watchScan_eq_uriStrings (dir : String) :
    ∀ t : Json, watchScan dir t = resolveNonData dir (uriStrings t)
  | .obj fields => watchScanFields_eq_uriStrings dir fields
  | .arr elems => watchScanElems_eq_uriStrings dir elems
  | .str _ => rfl
  | .num _ => rfl
  | .bool _ => rfl
  | .null => rfl

/-- Field-list version of watchScan_eq_uriStrings. -/
theorem watchScanFields_eq_uriStrings (dir : String) :
    ∀ l : List (String × Json),
      watchScanFields dir l = resolveNonData dir (uriStringsFields l)
  | [] => rfl
  | (k, v) :: rest => by
    cases v with
    | str s =>
      show (if k == "uri" && !(jsStartsWith s "data:")
            then [pathJoin dir s] else []) ++ watchScanFields dir rest
          = resolveNonData dir ((if k == "uri" then [s] else []) ++
              uriStringsFields rest)
      rw [resolveNonData_append, watchScanFields_eq_uriStrings dir rest]
      congr 1
      by_cases hk : (k == "uri") = true
      · by_cases hd : jsStartsWith s "data:" = true
        · simp [resolveNonData, hk, hd]
        · simp [resolveNonData, hk, hd]
      · simp [resolveNonData, hk]
    | obj fields =>
      show watchScan dir (.obj fields) ++ watchScanFields dir rest
          = resolveNonData dir (uriStrings (.obj fields) ++ uriStringsFields rest)
      rw [resolveNonData_append, watchScan_eq_uriStrings dir (.obj fields),
        watchScanFields_eq_uriStrings dir rest]
    | arr elems =>
      show watchScan dir (.arr elems) ++ watchScanFields dir rest
          = resolveNonData dir (uriStrings (.arr elems) ++ uriStringsFields rest)
      rw [resolveNonData_append, watchScan_eq_uriStrings dir (.arr elems),
        watchScanFields_eq_uriStrings dir rest]
    | null =>
      show watchScan dir .null ++ watchScanFields dir rest
          = resolveNonData dir (uriStrings .null ++ uriStringsFields rest)
      rw [resolveNonData_append, watchScanFields_eq_uriStrings dir rest]
      rfl
    | num n =>
      show [] ++ watchScanFields dir rest
          = resolveNonData dir ([] ++ uriStringsFields rest)
      rw [List.nil_append, List.nil_append]
      exact watchScanFields_eq_uriStrings dir rest
    | bool b =>
      show [] ++ watchScanFields dir rest
          = resolveNonData dir ([] ++ uriStringsFields rest)
      rw [List.nil_append, List.nil_append]
      exact watchScanFields_eq_uriStrings dir rest

/-- Element-list version of watchScan_eq_uriStrings. -/
theorem watchScanElems_eq_uriStrings (dir : String) :
    ∀ l : List Json,
      watchScanElems dir l = resolveNonData dir (uriStringsElems l)
  | [] => rfl
  | v :: rest => by
    show watchScan dir v ++ watchScanElems dir rest
        = resolveNonData dir (uriStrings v ++ uriStringsElems rest)
    rw [resolveNonData_append, watchScan_eq_uriStrings dir v,
      watchScanElems_eq_uriStrings dir rest]

end

/-- The character lists of two appended strings concatenate. -/
theorem data_of_append (a b : String) : (a ++ b).data = a.data ++ b.data := by
  cases a; cases b; rfl

/-- Resolving two names against the same directory is injective in the name. -/
theorem pathJoin_right_inj {dir a b : String}
    (h : pathJoin dir a = pathJoin dir b) : a = b := by
  have h1 := congrArg String.data h
  rw [pathJoin, pathJoin, data_of_append, data_of_append, data_of_append,
    data_of_append] at h1
  exact String.ext (List.append_cancel_left h1)

/-- A string that starts with data: contains a colon. -/
theorem jsStartsWith_data_colon {s : String}
    (h : jsStartsWith s "data:" = true) : s.data.contains ':' = true := by
  rw [jsStartsWith] at h
  have hp : ("data:".data) <+: s.data := List.isPrefixOf_iff_prefix.mp h
  exact List.elem_iff.mpr (hp.subset (by decide))

/-- A relative path is not a data URI. -/
theorem isRelativePath_not_data {s : String}
    (h : isRelativePath s = true) : jsStartsWith s "data:" = false := by
  cases hd : jsStartsWith s "data:" with
  | false => rfl
  | true =>
    rw [isRelativePath] at h
    rw [jsStartsWith_data_colon hd] at h
    simp at h

/-- C4: for every field of the parsed tree whose key is uri, a data: URI value
is never added to the watch set, while a relative-path value is always added,
resolved against the document directory; indeed the watch set is exactly the
list of non-data uri values, each resolved against the directory. -/
theorem reference_exclusion :
    ∀ (dir : String) (t : Json),
      watchScan dir t = resolveNonData dir (uriStrings t)
      ∧ (∀ s ∈ uriStrings t, jsStartsWith s "data:" = true →
          pathJoin dir s ∉ watchScan dir t)
      ∧ (∀ s ∈ uriStrings t, isRelativePath s = true →
          pathJoin dir s ∈ watchScan dir t) := by
  intro dir t
  refine ⟨watchScan_eq_uriStrings dir t, ?_, ?_⟩
  · intro s hs hdata hmem
    rw [watchScan_eq_uriStrings dir t] at hmem
    obtain ⟨s2, hs2, heq⟩ := List.mem_map.mp hmem
    obtain ⟨hs2mem, hs2nd⟩ := List.mem_filter.mp hs2
    have : s2 = s := pathJoin_right_inj heq
    subst this
    rw [hdata] at hs2nd
    simp at hs2nd
  · intro s hs hrel
    rw [watchScan_eq_uriStrings dir t]
    refine List.mem_map.mpr ⟨s, List.mem_filter.mpr ⟨hs, ?_⟩, rfl⟩
    rw [isRelativePath_not_data hrel]
    rfl

/-- Witness for C4 on a concrete tree holding one data URI and one relative
path: only the relative path is watched, resolved against the directory. -/
theorem reference_exclusion_witness :
    ("data:application/octet-stream;base64,AAA" ∈
        uriStrings (Json.obj [("buffers", Json.arr
          [Json.obj [("uri", Json.str "data:application/octet-stream;base64,AAA")],
           Json.obj [("uri", Json.str "buf.bin")]])]))
    ∧ jsStartsWith "data:application/octet-stream;base64,AAA" "data:" = true
    ∧ pathJoin "/dir" "data:application/octet-stream;base64,AAA" ∉
        watchScan "/dir" (Json.obj [("buffers", Json.arr
          [Json.obj [("uri", Json.str "data:application/octet-stream;base64,AAA")],
           Json.obj [("uri", Json.str "buf.bin")]])])
    ∧ ("buf.bin" ∈
        uriStrings (Json.obj [("buffers", Json.arr
          [Json.obj [("uri", Json.str "data:application/octet-stream;base64,AAA")],
           Json.obj [("uri", Json.str "buf.bin")]])]))
    ∧ isRelativePath "buf.bin" = true
    ∧ pathJoin "/dir" "buf.bin" ∈
        watchScan "/dir" (Json.obj [("buffers", Json.arr
          [Json.obj [("uri", Json.str "data:application/octet-stream;base64,AAA")],
           Json.obj [("uri", Json.str "buf.bin")]])]) := by
  refine ⟨by decide, by decide, ?_, by decide, by decide, ?_⟩
  · exact (reference_exclusion "/dir" (Json.obj [("buffers", Json.arr
      [Json.obj [("uri", Json.str "data:application/octet-stream;base64,AAA")],
       Json.obj [("uri", Json.str "buf.bin")]])])).2.1
      "data:application/octet-stream;base64,AAA" (by decide) (by decide)
  · exact (reference_exclusion "/dir" (Json.obj [("buffers", Json.arr
      [Json.obj [("uri", Json.str "data:application/octet-stream;base64,AAA")],
       Json.obj [("uri", Json.str "buf.bin")]])])).2.2
      "buf.bin" (by decide) (by decide)

/-
Watch-set rebuild lemmas for C3 and C7.
-/

/-- The handle entries for a path list have those paths, in order. -/
theorem handleEntries_snd : ∀ (paths : List String) (start : Nat),
    (handleEntries start paths).map Prod.snd = paths
  | [], _ => rfl
  | p :: rest, start => by
    rw [handleEntries, List.map_cons, handleEntries_snd rest (start + 1)]

/-- Every handle id in the entries starting at start is at least start. -/
theorem handleEntries_fst_ge : ∀ (paths : List String) (start : Nat)
    (e : Nat × String), e ∈ handleEntries start paths → start ≤ e.1
  | [], _, _, h => absurd h (List.not_mem_nil _)
  | p :: rest, start, e, h => by
    rw [handleEntries] at h
    rcases List.mem_cons.mp h with he | ht
    · subst he; exact Nat.le_refl start
    · exact Nat.le_of_succ_le (handleEntries_fst_ge rest (start + 1) e ht)

/-- The handle ids of the entries are pairwise distinct. -/
theorem handleEntries_fst_nodup : ∀ (paths : List String) (start : Nat),
    ((handleEntries start paths).map Prod.fst).Nodup
  | [], _ => List.nodup_nil
  | p :: rest, start => by
    rw [handleEntries, List.map_cons]
    refine List.nodup_cons.mpr ⟨?_, handleEntries_fst_nodup rest (start + 1)⟩
    intro hmem
    obtain ⟨e, he, hfst⟩ := List.mem_map.mp hmem
    have := handleEntries_fst_ge rest (start + 1) e he
    omega

/-- When every path exists, establishing watches for a path list appends one
fresh handle per path, in order, and raises no error. -/
theorem watchPaths_all_ok (fsys : String → Bool) :
    ∀ (paths : List String) (s : WatchState), (∀ p ∈ paths, fsys p = true) →
      watchPaths fsys paths s =
        (⟨s.watchers ++ handleEntries s.nextId paths,
          s.openHandles ++ handleEntries s.nextId paths,
          s.nextId + paths.length⟩, none)
  | [], s, _ => by
    show (s, none) = _
    cases s
    simp [handleEntries]
  | p :: rest, s, hall => by
    have hp : fsys p = true := hall p (List.mem_cons_self p rest)
    rw [watchPaths, fsWatch, if_pos hp]
    show watchPaths fsys rest ⟨s.watchers ++ [(s.nextId, p)],
      s.openHandles ++ [(s.nextId, p)], s.nextId + 1⟩ = _
    rw [watchPaths_all_ok fsys rest _
      (fun q hq => hall q (List.mem_cons_of_mem p hq))]
    rw [handleEntries]
    simp [List.append_assoc]
    omega

/-- A list holds no element that it does not contain. -/
theorem filter_not_contains_self {α : Type} [BEq α] [LawfulBEq α] (l : List α) :
    l.filter (fun h => !(l.contains h)) = [] := by
  refine List.filter_eq_nil_iff.mpr ?_
  intro a ha
  simp [List.contains, ha]

/-- Closing the watches of a panel whose open handles are exactly its watchers
leaves no handle open. -/
theorem unwatch_of_clean (s : WatchState) (h : s.openHandles = s.watchers) :
    unwatchFiles s = ⟨[], [], s.nextId⟩ := by
  rw [unwatchFiles, h, filter_not_contains_self]

/-- One watch rebuild from a leak-free state: the old watches are all closed
and exactly one fresh handle per scanned path is opened. -/
theorem watchFiles_from_clean (fsys : String → Bool) (docPath dir : String)
    (data : Option Json) (s : WatchState)
    (hall : ∀ p ∈ docPath :: watchScanOpt dir data, fsys p = true)
    (h : s.openHandles = s.watchers) :
    watchFiles fsys docPath dir data s =
      (⟨handleEntries s.nextId (docPath :: watchScanOpt dir data),
        handleEntries s.nextId (docPath :: watchScanOpt dir data),
        s.nextId + (docPath :: watchScanOpt dir data).length⟩, none) := by
  rw [watchFiles, unwatch_of_clean s h, watchPaths_all_ok fsys _ _ hall]
  simp

/-- After any positive number of rebuilds from a leak-free state, the watch
state consists of exactly the handles of the final rebuild. -/
theorem rebuildN_shape (fsys : String → Bool) (docPath dir : String)
    (data : Option Json)
    (hall : ∀ p ∈ docPath :: watchScanOpt dir data, fsys p = true) :
    ∀ (N : Nat) (s : WatchState), s.openHandles = s.watchers → 1 ≤ N →
      ∃ m, rebuildN fsys docPath dir data N s =
        ⟨handleEntries m (docPath :: watchScanOpt dir data),
         handleEntries m (docPath :: watchScanOpt dir data),
         m + (docPath :: watchScanOpt dir data).length⟩ := by
  intro N
  induction N with
  | zero => intro s _ h1; omega
  | succ n ih =>
    intro s hs _
    have h1 := watchFiles_from_clean fsys docPath dir data s hall hs
    cases n with
    | zero =>
      refine ⟨s.nextId, ?_⟩
      rw [rebuildN, rebuildN, h1]
    | succ n2 =>
      have h2 : rebuildN fsys docPath dir data (n2 + 1 + 1) s =
          rebuildN fsys docPath dir data (n2 + 1)
            (watchFiles fsys docPath dir data s).1 := rfl
      rw [h2, h1]
      exact ih _ rfl (by omega)

/-- C3: rebuilding the watch set first closes every existing watch, so after
any N successive rebuilds the active watches are exactly those implied by the
final rebuild alone: one handle per path in the list document-path ::
scanned references, with pairwise distinct handle ids and no handle left open
beyond the current watchers; and unwatchFiles is idempotent. -/
theorem watch_rebuild_idempotent :
    (∀ (fsys : String → Bool) (docPath dir : String) (data : Option Json)
       (N : Nat), (∀ p, fsys p = true) → 1 ≤ N →
      ((rebuildN fsys docPath dir data N initialWatchState).watchers.map
          Prod.snd = docPath :: watchScanOpt dir data
       ∧ (rebuildN fsys docPath dir data N initialWatchState).openHandles =
          (rebuildN fsys docPath dir data N initialWatchState).watchers
       ∧ ((rebuildN fsys docPath dir data N initialWatchState).watchers.map
          Prod.fst).Nodup))
    ∧ (∀ s : WatchState, unwatchFiles (unwatchFiles s) = unwatchFiles s) := by
  constructor
  · intro fsys docPath dir data N hf hN
    obtain ⟨m, hm⟩ := rebuildN_shape fsys docPath dir data
      (fun p _ => hf p) N initialWatchState rfl hN
    rw [hm]
    exact ⟨handleEntries_snd _ m, rfl, handleEntries_fst_nodup _ m⟩
  · intro s
    rw [unwatchFiles, unwatchFiles]
    simp only []
    congr 1
    induction (s.openHandles.filter (fun h => !(s.watchers.contains h))) with
    | nil => rfl
    | cons a t ih => simp [List.filter_cons, ih]

/-- Witness for C3: two rebuilds over the scenario document leave exactly the
two watches of the second rebuild (document path and the resolved texture),
with fresh distinct handles and no leak. -/
theorem watch_rebuild_idempotent_witness :
    ((rebuildN (fun _ => true) "/d/m.gltf" "/d" (some scenarioTree) 2
        initialWatchState).watchers.map Prod.snd =
      "/d/m.gltf" :: watchScanOpt "/d" (some scenarioTree)
     ∧ (rebuildN (fun _ => true) "/d/m.gltf" "/d" (some scenarioTree) 2
        initialWatchState).openHandles =
       (rebuildN (fun _ => true) "/d/m.gltf" "/d" (some scenarioTree) 2
        initialWatchState).watchers
     ∧ ((rebuildN (fun _ => true) "/d/m.gltf" "/d" (some scenarioTree) 2
        initialWatchState).watchers.map Prod.fst).Nodup) :=
  watch_rebuild_idempotent.1 (fun _ => true) "/d/m.gltf" "/d"
    (some scenarioTree) 2 (fun _ => rfl) (by omega)

/-- When establishing watches hits a missing path, the watches established
before it persist, the failing one and all later ones are not established, and
the ENOENT error propagates. -/
theorem watchPaths_with_failure (fsys : String → Bool) :
    ∀ (good : List String) (bad : String) (rest : List String) (s : WatchState),
      (∀ p ∈ good, fsys p = true) → fsys bad = false →
      watchPaths fsys (good ++ bad :: rest) s =
        (⟨s.watchers ++ handleEntries s.nextId good,
          s.openHandles ++ handleEntries s.nextId good,
          s.nextId + good.length⟩, some ("ENOENT: " ++ bad))
  | [], bad, rest, s, _, hbad => by
    rw [List.nil_append, watchPaths, fsWatch, if_neg (by simp [hbad])]
    cases s
    simp [handleEntries]
  | p :: good, bad, rest, s, hgood, hbad => by
    have hp : fsys p = true := hgood p (List.mem_cons_self p good)
    rw [List.cons_append, watchPaths, fsWatch, if_pos hp]
    show watchPaths fsys (good ++ bad :: rest) ⟨s.watchers ++ [(s.nextId, p)],
      s.openHandles ++ [(s.nextId, p)], s.nextId + 1⟩ = _
    rw [watchPaths_with_failure fsys good bad rest _
      (fun q hq => hgood q (List.mem_cons_of_mem p hq)) hbad]
    rw [handleEntries]
    simp [List.append_assoc]
    omega

/-- A concrete document referencing one missing and one existing file. -/
def missingRefTree : Json :=
  .obj [("images", .arr [.obj [("uri", .str "missing.png")],
                         .obj [("uri", .str "ok.png")]])]

/-- C7 counterexample: with the document watch established and the first
scanned reference missing, watchFiles throws ENOENT; the remaining reference
ok.png is never watched and the refresh does not complete, contradicting the
claim that only the single failing watch is skipped. -/
theorem watch_failure_aborts_cex :
    watchFiles (fun p => p != "/dir/missing.png") "/dir/model.gltf" "/dir"
        (some missingRefTree) initialWatchState =
      (⟨[(0, "/dir/model.gltf")], [(0, "/dir/model.gltf")], 1⟩,
       some "ENOENT: /dir/missing.png") := by decide

/-- C7 amended: a failure to establish one watch makes the thrown ENOENT
abort the rest of the watch rebuild: the watches established before the
failing path (document watch first, then scanned references in order) remain
active, while the failing watch and every later one are not established, and
the error propagates out of the refresh. -/
theorem watch_failure_amended :
    ∀ (fsys : String → Bool) (docPath dir : String) (data : Option Json)
      (s : WatchState) (good : List String) (bad : String) (rest : List String),
      docPath :: watchScanOpt dir data = good ++ bad :: rest →
      (∀ p ∈ good, fsys p = true) → fsys bad = false →
      (watchFiles fsys docPath dir data s).2 = some ("ENOENT: " ++ bad)
      ∧ ((watchFiles fsys docPath dir data s).1).watchers.map Prod.snd = good := by
  intro fsys docPath dir data s good bad rest hsplit hgood hbad
  rw [watchFiles, hsplit, watchPaths_with_failure fsys good bad rest _ hgood hbad]
  refine ⟨rfl, ?_⟩
  show ((unwatchFiles s).watchers ++ handleEntries (unwatchFiles s).nextId good).map
      Prod.snd = good
  rw [unwatchFiles]
  simp [handleEntries_snd]

/-- Witness for the amended C7 at the concrete missing-reference document. -/
theorem watch_failure_amended_witness :
    (watchFiles (fun p => p != "/dir/missing.png") "/dir/model.gltf" "/dir"
        (some missingRefTree) initialWatchState).2 =
      some ("ENOENT: " ++ "/dir/missing.png")
    ∧ ((watchFiles (fun p => p != "/dir/missing.png") "/dir/model.gltf" "/dir"
        (some missingRefTree) initialWatchState).1).watchers.map Prod.snd =
      ["/dir/model.gltf"] :=
  watch_failure_amended (fun p => p != "/dir/missing.png") "/dir/model.gltf"
    "/dir" (some missingRefTree) initialWatchState ["/dir/model.gltf"]
    "/dir/missing.png" ["/dir/ok.png"] (by decide) (by decide) (by decide)

/-
The recursion of the watch closure on general object graphs (C8) and the
degraded update on parse failure (C9).
-/

/-- On the self-referential graph the scan consumes any amount of fuel without
completing: the recursion of the source never terminates there. -/
theorem scanGraph_cyclic_none (dir : String) :
    ∀ fuel : Nat, scanGraph cyclicGraph dir fuel 0 = none := by
  intro fuel
  induction fuel using Nat.strong_induction_on with
  | _ fuel ih =>
    match fuel with
    | 0 => rfl
    | 1 => rfl
    | f + 2 =>
      show (match scanGraph cyclicGraph dir f 0 with
            | none => none
            | some xs =>
              match scanGraphFields cyclicGraph dir f [] with
              | none => none
              | some ys => some (xs ++ ys)) = none
      rw [ih f (by omega)]

/-- C8 counterexample: the watch closure keeps no record of visited composite
nodes, so on the shared graph (node 0 references node 1 twice, node 1 carries
uri x.png) the same subtree is visited twice in one traversal and its watch
path is produced twice. -/
theorem scanner_revisits_shared_cex :
    scanGraph sharedGraph "/d" 6 0 = some ["/d/x.png", "/d/x.png"] := by decide

/-- C8 amended: the reference scan is a plain structural recursion without
visited-node tracking. It visits nested structures of arbitrary depth and
terminates on every parsed tree, because parse output is a finite acyclic tree
in which each subtree occurrence is visited once; on a shared object graph it
revisits shared subtrees, and on a self-referential structure it would not
terminate, as no fuel suffices for the cyclic graph. -/
theorem scanner_no_visited_tracking :
    (∀ (dir : String) (n : Nat),
      watchScan dir (nestedDoc n) = [pathJoin dir "deep.bin"])
    ∧ (∀ (dir : String) (fuel : Nat), scanGraph cyclicGraph dir fuel 0 = none) := by
  constructor
  · intro dir n
    induction n with
    | zero =>
      have hds : jsStartsWith "deep.bin" "data:" = false := by decide
      show (if ("uri" == "uri") && !(jsStartsWith "deep.bin" "data:")
            then [pathJoin dir "deep.bin"] else []) ++ watchScanFields dir [] =
          [pathJoin dir "deep.bin"]
      rw [hds]
      rfl
    | succ k ih =>
      obtain ⟨fields, hm⟩ : ∃ fields, nestedDoc k = Json.obj fields := by
        cases k with
        | zero => exact ⟨[("uri", Json.str "deep.bin")], rfl⟩
        | succ k2 => exact ⟨[("child", nestedDoc k2)], rfl⟩
      rw [show nestedDoc (k + 1) = Json.obj [("child", nestedDoc k)] from rfl, hm]
      rw [hm] at ih
      show watchScan dir (Json.obj fields) ++ watchScanFields dir [] =
          [pathJoin dir "deep.bin"]
      rw [ih]
      rfl
  · exact fun dir => scanGraph_cyclic_none dir

/-- Rebuilding the watch set when the parse produced no data establishes just
the document watch, successfully when the document file exists. -/
theorem watchFiles_no_data (fsys : String → Bool) (docPath dir : String)
    (s : WatchState) (hf : fsys docPath = true) :
    watchFiles fsys docPath dir none s =
      (⟨[(s.nextId, docPath)],
        (unwatchFiles s).openHandles ++ [(s.nextId, docPath)],
        s.nextId + 1⟩, none) := by
  rw [watchFiles]
  show watchPaths fsys [docPath] (unwatchFiles s) = _
  rw [watchPaths, fsWatch, if_pos hf]
  show watchPaths fsys []
      ⟨(unwatchFiles s).watchers ++ [((unwatchFiles s).nextId, docPath)],
       (unwatchFiles s).openHandles ++ [((unwatchFiles s).nextId, docPath)],
       (unwatchFiles s).nextId + 1⟩ = _
  rw [watchPaths]
  rfl

/-- C9: when parsing fails, the parser yields the failure sentinel rather than
a crash, and updatePanel still completes without error: the html payload is
built (from the raw text, independent of the parse result), the stored map
carries the sentinel, and the watch set degrades to just the document watch —
the panel stays usable. -/
theorem parse_failure_degraded_update :
    ∀ (env : HostEnv) (fsys : String → Bool) (parse : String → JsonMap)
      (p : PanelState) (path content : String),
      parse content = parseFailureSentinel → fsys path = true →
      ((updatePanel env fsys parse p path content).2 = none
       ∧ ((updatePanel env fsys parse p path content).1).html.isSome = true
       ∧ ((updatePanel env fsys parse p path content).1).jsonMap.data = none
       ∧ (((updatePanel env fsys parse p path content).1).ws.watchers).map
           Prod.snd = [path]) := by
  intro env fsys parse p path content hp hf
  have hd : (parse content).data = none := by rw [hp]; rfl
  refine ⟨?_, rfl, ?_, ?_⟩
  · show (watchFiles fsys path (dirname path) (parse content).data p.ws).2 = none
    rw [hd, watchFiles_no_data fsys path (dirname path) p.ws hf]
  · show (parse content).data = none
    exact hd
  · show ((watchFiles fsys path (dirname path) (parse content).data
        p.ws).1).watchers.map Prod.snd = [path]
    rw [hd, watchFiles_no_data fsys path (dirname path) p.ws hf]
    rfl

/-- A concrete host environment for witnesses. -/
def sampleEnv : HostEnv :=
  ⟨"<html>\x7bassets\x7d</html>", "", "", "", "/ext/", fun _ => "",
   fun s => s, "csp"⟩

/-- Witness for C9 at a concrete panel, environment and unparsable text. -/
theorem parse_failure_degraded_update_witness :
    ((updatePanel sampleEnv (fun _ => true) (fun _ => parseFailureSentinel)
        samplePanel "/dir/m.gltf" "not json").2 = none
     ∧ ((updatePanel sampleEnv (fun _ => true) (fun _ => parseFailureSentinel)
        samplePanel "/dir/m.gltf" "not json").1).html.isSome = true
     ∧ ((updatePanel sampleEnv (fun _ => true) (fun _ => parseFailureSentinel)
        samplePanel "/dir/m.gltf" "not json").1).jsonMap.data = none
     ∧ (((updatePanel sampleEnv (fun _ => true) (fun _ => parseFailureSentinel)
        samplePanel "/dir/m.gltf" "not json").1).ws.watchers).map
         Prod.snd = ["/dir/m.gltf"]) :=
  parse_failure_degraded_update sampleEnv (fun _ => true)
    (fun _ => parseFailureSentinel) samplePanel "/dir/m.gltf" "not json" rfl rfl

end GltfPreview
